import Mathlib

/-!
Verification of the `pdf-mcp-client` package: a shallow embedding of
`protocol.py`, `utils.py` and `http_client.py` (the JSON-RPC envelope
builders, the PDF path validation / base64 encoding utilities, and the
HTTP tool-call client's response handling), together with theorems about
the behaviour the package documents.

Python's dynamically-typed JSON values are modelled by the inductive
type `JVal`; Python dictionaries parsed from JSON are association lists
`List (String × JVal)`.  The filesystem the utilities touch is modelled
by the structure `FS` (a symlink-free POSIX view: existence, directory
flag, regular-file contents and path canonicalization), and HTTP
exchanges by their observable data (status code plus parsed body).
-/

namespace PdfMcpClient

/-- A JSON value, as produced by Python's `json.loads` /
`response.json()`. -/
inductive JVal where
  | jnull : JVal
  | jbool : Bool → JVal
  | jnum : Int → JVal
  | jstr : String → JVal
  | jarr : List JVal → JVal
  | jobj : List (String × JVal) → JVal

/-- Python `dict.get(k)` on a parsed-JSON dictionary: the value at the
key, or `none` when the key is absent. -/
def dictGet (d : List (String × JVal)) (k : String) : Option JVal :=
  (d.find? (fun p => p.1 == k)).map (fun p => p.2)

/-- `dict.get(k)` on a `JVal` known to be an object; `none` when the
key is absent or the value is not an object. -/
def JVal.getField (v : JVal) (k : String) : Option JVal :=
  match v with
  | .jobj fields => dictGet fields k
  | _ => none

/-- Python truthiness of a JSON value (`if not content_items`). -/
def jFalsy : JVal → Bool
  | .jnull => true
  | .jbool b => !b
  | .jnum n => n == 0
  | .jstr s => s.isEmpty
  | .jarr xs => xs.isEmpty
  | .jobj fields => fields.isEmpty

/-- Python `str()` of an optional JSON value, as interpolated by the
f-string in `_call_tool`'s error message (`None` for a missing key;
composite values are abstracted by a fixed rendering, which no theorem
below depends on). -/
def pyStr : Option JVal → String
  | none => "None"
  | some .jnull => "None"
  | some (.jbool true) => "True"
  | some (.jbool false) => "False"
  | some (.jnum n) => toString n
  | some (.jstr s) => s
  | some (.jarr _) => "<list>"
  | some (.jobj _) => "<dict>"

/-- Python `first_item.get("type") == "text"`: true exactly when the
optional value is the string `"text"` (any non-string value compares
unequal to a `str` in Python). -/
def isTextType : Option JVal → Bool
  | some (.jstr s) => s == "text"
  | _ => false

/-- Outcome of `MCPHTTPClient._call_tool`'s handling of a parsed
JSON-RPC response body (after `raise_for_status` has passed):
  * `ok v` — the dictionary the method returns;
  * `protocolError msg` — the `ValueError(f"MCP error [...]: ...")`
    raised when the body carries an `error` key;
  * `keyError k` — a Python `KeyError` from direct indexing;
  * `parseError` — `json.loads` failed on the content item's text;
  * `otherError` — some other Python exception (attribute/type errors
    on values outside the JSON-RPC shape the code expects). -/
inductive CallResult where
  | ok : JVal → CallResult
  | protocolError : String → CallResult
  | keyError : String → CallResult
  | parseError : CallResult
  | otherError : CallResult

/-- The response-handling tail of `MCPHTTPClient._call_tool`
(http_client.py lines 95–117), applied to the parsed JSON-RPC response
`rpc`.  `parse` models `json.loads` on the embedded content text
(`none` = `json.JSONDecodeError`).  Note the `.get` defaults only an
absent `result` key: a present non-mapping value (null, string,
number, array, bool) reaches `result.get("content", [])`, which
raises `AttributeError` — modelled as `otherError`, like the other
off-shape exception paths. -/
def call_tool_handle (parse : String → Option JVal)
    (rpc : List (String × JVal)) : CallResult :=
  match dictGet rpc "error" with
  | some err =>
    match err with
    | .jobj efields =>
      CallResult.protocolError
        ("MCP error [" ++ pyStr (dictGet efields "code") ++ "]: "
          ++ pyStr (dictGet efields "message"))
    | _ => CallResult.otherError
  | none =>
    match (dictGet rpc "result").getD (.jobj []) with
    | .jobj rfields =>
      let contentItems := (dictGet rfields "content").getD (.jarr [])
      if jFalsy contentItems then CallResult.ok (.jobj [])
      else
        match contentItems with
        | .jarr (first :: _) =>
          match first with
          | .jobj ffields =>
            if isTextType (dictGet ffields "type") then
              match dictGet ffields "text" with
              | none => CallResult.keyError "text"
              | some (.jstr s) =>
                match parse s with
                | some v => CallResult.ok v
                | none => CallResult.parseError
              | some _ => CallResult.otherError
            else CallResult.ok (.jobj [])
          | _ => CallResult.otherError
        | _ => CallResult.otherError
    | _ => CallResult.otherError

/-- `MCPHTTPClient.extract_text`'s final step
(`result.get("text", "")`): the value produced from `_call_tool`'s
outcome, or `none` when the call raised (the exception propagates) or
the returned value is not a dictionary. -/
def extract_text_from (r : CallResult) : Option JVal :=
  match r with
  | .ok (.jobj fields) => some ((dictGet fields "text").getD (.jstr ""))
  | _ => none

/-- `MCPHTTPClient.extract_metadata`'s final step: the `_call_tool`
result returned unmodified, or `none` when the call raised. -/
def extract_metadata_from (r : CallResult) : Option JVal :=
  match r with
  | .ok v => some v
  | _ => none

/-- httpx `Response.raise_for_status` passes exactly on a 2xx status. -/
def statusOk (status : Nat) : Bool :=
  200 ≤ status && status < 300

/-- Outcome of one `_call_tool` HTTP exchange, observed through the
response's status and parsed body:
  * `transportError s` — `raise_for_status` raised `httpx.HTTPStatusError`;
  * `bodyNotJson` — `response.json()` failed (body is not JSON);
  * `handled r` — the body was parsed and handled as in
    `call_tool_handle`. -/
inductive ToolCallOutcome where
  | transportError : Nat → ToolCallOutcome
  | bodyNotJson : ToolCallOutcome
  | handled : CallResult → ToolCallOutcome

/-- `MCPHTTPClient._call_tool` from the arrival of the HTTP response
onward (http_client.py lines 91–117): check the status first, only then
parse and inspect the body. -/
def call_tool (parse : String → Option JVal) (status : Nat)
    (body : Option (List (String × JVal))) : ToolCallOutcome :=
  if statusOk status then
    match body with
    | some rpc => ToolCallOutcome.handled (call_tool_handle parse rpc)
    | none => ToolCallOutcome.bodyNotJson
  else ToolCallOutcome.transportError status

/-- `MCPHTTPClient.health_check`: the GET to `<base>/health` either
fails at the network level (`none`, any `httpx.HTTPError`, caught) or
yields a status code (`some status`); the method returns a Bool and
never raises. -/
def health_check (getHealth : Option Nat) : Bool :=
  match getHealth with
  | some status => status == 200
  | none => false

/-- A JSON-RPC request id: `int | str` in `protocol.py`. -/
inductive RequestId where
  | int : Int → RequestId
  | str : String → RequestId

/-- The `JSONRPCRequest` TypedDict of `protocol.py`. -/
structure JSONRPCRequest where
  jsonrpc : String
  id : RequestId
  method : String
  params : JVal

/-- `MCPProtocol.create_request`. -/
def create_request (method : String) (params : JVal)
    (request_id : RequestId) : JSONRPCRequest :=
  ⟨"2.0", request_id, method, params⟩

/-- `MCPProtocol.create_tool_call_request`. -/
def create_tool_call_request (tool_name : String) (arguments : JVal)
    (request_id : RequestId) : JSONRPCRequest :=
  create_request "tools/call"
    (.jobj [("name", .jstr tool_name), ("arguments", arguments)])
    request_id

/-- The per-instance mutable state of `MCPHTTPClient` relevant to
request ids: the `_request_id` counter, set to 0 in `__init__`. -/
structure ClientState where
  request_id : Nat

/-- `MCPHTTPClient.__init__`: `self._request_id = 0`. -/
def init_client : ClientState := ⟨0⟩

/-- `MCPHTTPClient._next_request_id`: increment the counter and return
the new value, together with the updated instance state. -/
def next_request_id (s : ClientState) : Nat × ClientState :=
  (s.request_id + 1, ⟨s.request_id + 1⟩)

/-- The ids attached to `n` successive tool calls issued from state
`s` (each `_call_tool` invokes `_next_request_id` exactly once). -/
def issuedIds : ClientState → Nat → List Nat
  | _, 0 => []
  | s, n + 1 => (next_request_id s).1 :: issuedIds (next_request_id s).2 n

/-- Split a character list on a separator (the list-level analogue of
Python's `str.split`). -/
def splitOnChar (sep : Char) : List Char → List (List Char)
  | [] => [[]]
  | c :: rest =>
    let r := splitOnChar sep rest
    if c == sep then [] :: r
    else (c :: r.headD []) :: r.tail

/-- ASCII lowercasing, the fragment of Python's `str.lower` exercised
by the `.pdf` suffix comparison. -/
def strToLower (s : String) : String :=
  String.mk (s.data.map Char.toLower)

/-- pathlib's components of a POSIX path string: split on `/`, drop
empty components and single dots (as `PurePosixPath` normalization
does). -/
def pathComponents (p : String) : List String :=
  ((splitOnChar '/' p.data).map String.mk).filter
    (fun s => !(s == "") && !(s == "."))

/-- pathlib `Path(p).name`: the final path component (empty for the
root). -/
def pathName (p : String) : String :=
  (pathComponents p).getLastD ""

/-- pathlib's `suffix` of a file name: the substring from the last dot,
provided that dot is neither the first nor the last character of the
name (so dotfiles like `.bashrc` and names without a dot have an empty
suffix). -/
def suffixOfName (name : String) : String :=
  let cs := name.data
  let k := (cs.reverse.takeWhile (fun c => c != '.')).length
  if k == cs.length then ""
  else
    let i := cs.length - k - 1
    if 0 < i && 0 < k then String.mk (cs.drop i) else ""

/-- pathlib `Path(p).suffix`. -/
def pathSuffix (p : String) : String :=
  suffixOfName (pathName p)

/-- An absolute POSIX path. -/
def isAbsolutePath (p : String) : Bool :=
  p.data.headD ' ' == '/'

/-- A symlink-free view of the filesystem the utilities run against:
which paths exist, which are directories, the bytes of regular files
(`none` for directories and missing paths, so `open(path, "rb")`
succeeds exactly on `some`), and `Path.resolve`'s canonicalization. -/
structure FS where
  pathExists : String → Bool
  isDir : String → Bool
  content : String → Option (List Nat)
  resolve : String → String

/-- Well-formedness of the filesystem view: `resolve` canonicalizes an
existing path to an absolute path for the same entry (no symlinks, so
the final name component is unchanged), directories have no
byte-contents, and regular-file contents are bytes. -/
structure FS.WF (fs : FS) : Prop where
  resolve_exists : ∀ p, fs.pathExists p = true →
    fs.pathExists (fs.resolve p) = true
  resolve_abs : ∀ p, fs.pathExists p = true →
    isAbsolutePath (fs.resolve p) = true
  resolve_name : ∀ p, fs.pathExists p = true →
    pathName (fs.resolve p) = pathName p
  resolve_content : ∀ p, fs.content (fs.resolve p) = fs.content p
  resolve_dir : ∀ p, fs.isDir (fs.resolve p) = fs.isDir p
  dir_no_content : ∀ p, fs.isDir p = true → fs.content p = none
  content_bytes : ∀ p bs, fs.content p = some bs → ∀ b ∈ bs, b < 256

/-- Outcome of `PDFUtils.validate_pdf_path`: the resolved path, or the
raised `FileNotFoundError` / `ValueError` with its message. -/
inductive ValidateResult where
  | ok : String → ValidateResult
  | notFound : String → ValidateResult
  | invalidFormat : String → ValidateResult

/-- `PDFUtils.validate_pdf_path` (utils.py lines 24–29): existence
check, then case-insensitive `.pdf` suffix check, then `resolve()`. -/
def validate_pdf_path (fs : FS) (pdf_path : String) : ValidateResult :=
  if !(fs.pathExists pdf_path) then
    ValidateResult.notFound ("PDF file not found: " ++ pdf_path)
  else if !(strToLower (pathSuffix pdf_path) == ".pdf") then
    ValidateResult.invalidFormat ("File is not a PDF: " ++ pdf_path)
  else ValidateResult.ok (fs.resolve pdf_path)

/-- The base64 alphabet of RFC 4648 §4, as used by Python's
`base64.b64encode` (not the URL-safe variant). -/
def b64Alphabet : List Char :=
  ['A', 'B', 'C', 'D', 'E', 'F', 'G', 'H', 'I', 'J', 'K', 'L', 'M',
   'N', 'O', 'P', 'Q', 'R', 'S', 'T', 'U', 'V', 'W', 'X', 'Y', 'Z',
   'a', 'b', 'c', 'd', 'e', 'f', 'g', 'h', 'i', 'j', 'k', 'l', 'm',
   'n', 'o', 'p', 'q', 'r', 's', 't', 'u', 'v', 'w', 'x', 'y', 'z',
   '0', '1', '2', '3', '4', '5', '6', '7', '8', '9', '+', '/']

/-- The alphabet character for a 6-bit group. -/
def b64Char (n : Nat) : Char :=
  b64Alphabet.getD n '?'

/-- The 6-bit group encoded by an alphabet character, `none` for a
character outside the alphabet. -/
def b64CharIdx (c : Char) : Option Nat :=
  let i := b64Alphabet.indexOf c
  if i < 64 then some i else none

/-- `base64.b64encode` on a byte list: three bytes become four
alphabet characters; a final group of one or two bytes is padded with
`=`.  No line wrapping. -/
def b64EncodeBytes : List Nat → List Char
  | [] => []
  | [b1] => [b64Char (b1 / 4), b64Char (b1 % 4 * 16), '=', '=']
  | [b1, b2] =>
    [b64Char (b1 / 4), b64Char (b1 % 4 * 16 + b2 / 16),
     b64Char (b2 % 16 * 4), '=']
  | b1 :: b2 :: b3 :: rest =>
    b64Char (b1 / 4) :: b64Char (b1 % 4 * 16 + b2 / 16) ::
    b64Char (b2 % 16 * 4 + b3 / 64) :: b64Char (b3 % 64) ::
    b64EncodeBytes rest

/-- Standard base64 decoding (strict RFC 4648: four-character groups,
`=` padding only at the end), the inverse used to state the round-trip
property. -/
def b64DecodeChars : List Char → Option (List Nat)
  | [] => some []
  | c1 :: c2 :: c3 :: c4 :: rest =>
    match b64CharIdx c1, b64CharIdx c2 with
    | some a, some b =>
      if c3 = '=' then
        if c4 = '=' ∧ rest = [] then some [a * 4 + b / 16] else none
      else
        match b64CharIdx c3 with
        | some c =>
          if c4 = '=' then
            if rest = [] then some [a * 4 + b / 16, b % 16 * 16 + c / 4]
            else none
          else
            match b64CharIdx c4, b64DecodeChars rest with
            | some d, some tail =>
              some ((a * 4 + b / 16) :: (b % 16 * 16 + c / 4) ::
                    (c % 4 * 64 + d) :: tail)
            | _, _ => none
        | none => none
    | _, _ => none
  | _ => none

/-- Outcome of `PDFUtils.read_pdf_as_base64`: the encoded string, one
of `validate_pdf_path`'s errors, or the `OSError` which `open` raises
on a path without readable byte-contents (e.g. `IsADirectoryError`). -/
inductive ReadResult where
  | ok : String → ReadResult
  | notFound : String → ReadResult
  | invalidFormat : String → ReadResult
  | ioError : ReadResult

/-- `PDFUtils.read_pdf_as_base64` (utils.py lines 45–48): validate,
open and read the resolved path, base64-encode. -/
def read_pdf_as_base64 (fs : FS) (pdf_path : String) : ReadResult :=
  match validate_pdf_path fs pdf_path with
  | .notFound msg => ReadResult.notFound msg
  | .invalidFormat msg => ReadResult.invalidFormat msg
  | .ok resolved =>
    match fs.content resolved with
    | some pdf_bytes => ReadResult.ok (String.mk (b64EncodeBytes pdf_bytes))
    | none => ReadResult.ioError

/-- A filesystem view holding exactly one entry, at an already-absolute
canonical path (so `resolve` is the identity): a regular file with the
given bytes when `dir` is false, a directory when `dir` is true. -/
def singleFS (path : String) (bytes : List Nat) (dir : Bool) : FS :=
  ⟨fun p => p == path,
   fun p => p == path && dir,
   fun p => if p == path && !dir then some bytes else none,
   fun p => p⟩

/-- Whether string `s` ends with string `t` (list-level, used to state
the spec's "name ends in .pdf"). -/
def strEndsWith (s t : String) : Bool :=
  s.data.reverse.take t.data.length == t.data.reverse

end PdfMcpClient

namespace PdfMcpClient

/-! ## Helper lemmas -/

theorem singleFS_wf (path : String) (bytes : List Nat) (dir : Bool)
    (habs : isAbsolutePath path = true) (hb : ∀ b ∈ bytes, b < 256) :
    (singleFS path bytes dir).WF := by
  refine ⟨fun p h => h, ?_, fun p _ => rfl, fun p => rfl, fun p => rfl, ?_, ?_⟩
  · intro p h
    have hp : p = path := by simpa [singleFS] using h
    simpa [singleFS, hp] using habs
  · intro p h
    simp only [singleFS, Bool.and_eq_true, beq_iff_eq] at h
    simp [singleFS, h.1, h.2]
  · intro p bs h b hbmem
    simp only [singleFS] at h
    split at h
    · cases h; exact hb b hbmem
    · cases h

theorem issuedIds_eq_range' (n : Nat) : ∀ s : ClientState,
    issuedIds s n = List.range' (s.request_id + 1) n := by
  induction n with
  | zero => intro s; rfl
  | succ n ih =>
    intro s
    simp [issuedIds, next_request_id, List.range'_succ, ih]

end PdfMcpClient

namespace PdfMcpClient

/-! ## Claim theorems -/

/-- C5.  `create_request` returns exactly the mapping
`(jsonrpc = "2.0", id, method, params)`; `create_tool_call_request`
returns exactly the `tools/call` specialization; both are pure
functions of their arguments, `jsonrpc` is always the literal `"2.0"`,
and the concrete `extract_text` instance from the spec holds. -/
theorem create_request_shape :
    (∀ (method : String) (params : JVal) (rid : RequestId),
      create_request method params rid = ⟨"2.0", rid, method, params⟩) ∧
    (∀ (tool_name : String) (arguments : JVal) (rid : RequestId),
      create_tool_call_request tool_name arguments rid =
        ⟨"2.0", rid, "tools/call",
         .jobj [("name", .jstr tool_name), ("arguments", arguments)]⟩) ∧
    (∀ (method : String) (params : JVal) (rid : RequestId),
      (create_request method params rid).jsonrpc = "2.0") ∧
    create_tool_call_request "extract_text"
        (.jobj [("fileContent", .jstr "abc")]) (.int 7) =
      ⟨"2.0", .int 7, "tools/call",
       .jobj [("name", .jstr "extract_text"),
              ("arguments", .jobj [("fileContent", .jstr "abc")])]⟩ :=
  ⟨fun _ _ _ => rfl, fun _ _ _ => rfl, fun _ _ _ => rfl, rfl⟩

/-- C8.  Starting from a fresh client instance
(`self._request_id = 0`), the ids attached to `n` successive tool
calls are exactly `[1, 2, ..., n]` — strictly increasing from 1; the
counter lives in the per-instance state, so any other fresh instance
produces the same sequence starting again at 1. -/
theorem request_ids_strictly_increasing :
    (∀ n, issuedIds init_client n = List.range' 1 n) ∧
    issuedIds init_client 3 = [1, 2, 3] ∧
    (∀ n, List.Pairwise (· < ·) (issuedIds init_client n)) := by
  have h : ∀ n, issuedIds init_client n = List.range' 1 n := by
    intro n
    simpa [init_client] using issuedIds_eq_range' n init_client
  refine ⟨h, by rw [h 3]; rfl, ?_⟩
  intro n
  rw [h n]
  exact List.pairwise_lt_range' 1 n

/-- C6.  `health_check` returns true exactly when the GET to
`<base>/health` completed with status 200: any other status yields
false, every network-level failure (caught `httpx.HTTPError`) yields
false, and the function never raises (it is total into `Bool`) —
whereas `_call_tool` on the same HTTP 500 raises a transport error. -/
theorem health_check_true_iff_200 :
    (∀ r, health_check r = true ↔ r = some 200) ∧
    health_check (some 500) = false ∧
    health_check none = false ∧
    (∀ (parse : String → Option JVal)
       (body : Option (List (String × JVal))),
      call_tool parse 500 body = .transportError 500) := by
  refine ⟨?_, rfl, rfl, fun parse body => rfl⟩
  intro r
  cases r with
  | none => simp [health_check]
  | some s => simp [health_check]

/-- C3.  `validate_pdf_path` fails with `FileNotFoundError` on every
non-existent path, fails with `ValueError` on every existing path
whose (case-insensitively lowered) suffix is not `.pdf`, and checks
existence first: a non-existent path with a wrong extension still
yields `FileNotFoundError`. -/
theorem validate_pdf_path_error_taxonomy (fs : FS) (p : String) :
    (fs.pathExists p = false →
      validate_pdf_path fs p = .notFound ("PDF file not found: " ++ p)) ∧
    (fs.pathExists p = true → strToLower (pathSuffix p) ≠ ".pdf" →
      validate_pdf_path fs p = .invalidFormat ("File is not a PDF: " ++ p)) ∧
    (fs.pathExists p = false → strToLower (pathSuffix p) ≠ ".pdf" →
      validate_pdf_path fs p = .notFound ("PDF file not found: " ++ p)) := by
  refine ⟨?_, ?_, ?_⟩
  · intro h1
    simp [validate_pdf_path, h1]
  · intro h1 h2
    simp [validate_pdf_path, h1, h2]
  · intro h1 _
    simp [validate_pdf_path, h1]

/-- Witness for C3: a concrete existing `.txt` file is rejected as
`InvalidFormatError`, and a concrete missing `.pdf` path is rejected
as `FileNotFoundError`. -/
theorem validate_pdf_path_error_taxonomy_witness :
    validate_pdf_path (singleFS "/doc.txt" [1, 2] false) "/doc.txt" =
      .invalidFormat "File is not a PDF: /doc.txt" ∧
    validate_pdf_path (singleFS "/doc.txt" [1, 2] false) "/missing.pdf" =
      .notFound "PDF file not found: /missing.pdf" :=
  ⟨(validate_pdf_path_error_taxonomy (singleFS "/doc.txt" [1, 2] false)
      "/doc.txt").2.1 (by decide) (by decide),
   (validate_pdf_path_error_taxonomy (singleFS "/doc.txt" [1, 2] false)
      "/missing.pdf").1 (by decide)⟩

/-- C2.  A non-2xx status raises `httpx.HTTPStatusError` before the
body is parsed (the outcome is `transportError` whatever the body,
even a non-JSON one); a 2xx response whose parsed body carries an
`error` key fails with the distinct `ValueError` protocol error whose
message embeds the server's message text and code — before the
`result` field is read (the body `rpc` is arbitrary elsewhere, in
particular in its `result` field). -/
theorem call_tool_error_precedence
    (parse : String → Option JVal) (status : Nat)
    (body : Option (List (String × JVal)))
    (rpc efields : List (String × JVal)) (m : String) :
    (statusOk status = false →
      call_tool parse status body = .transportError status) ∧
    (statusOk status = true → body = some rpc →
      dictGet rpc "error" = some (.jobj efields) →
      dictGet efields "message" = some (.jstr m) →
      call_tool parse status body =
        .handled (.protocolError
          ("MCP error [" ++ pyStr (dictGet efields "code") ++ "]: " ++ m)) ∧
      (∃ pre, "MCP error [" ++ pyStr (dictGet efields "code") ++ "]: " ++ m
        = pre ++ m) ∧
      (∃ pre post,
        "MCP error [" ++ pyStr (dictGet efields "code") ++ "]: " ++ m
        = pre ++ pyStr (dictGet efields "code") ++ post)) := by
  constructor
  · intro h
    simp [call_tool, h]
  · intro h1 h2 h3 h4
    subst h2
    refine ⟨?_, ⟨"MCP error [" ++ pyStr (dictGet efields "code") ++ "]: ",
      rfl⟩, ⟨"MCP error [", "]: " ++ m, ?_⟩⟩
    · simp [call_tool, h1, call_tool_handle, h3, h4, pyStr]
    · simp [String.append_assoc]

/-- Witness for C2: a 500 response is a transport error for any body;
a 200 response whose body is a JSON-RPC error object with code -32600
and message "boom" is the formatted protocol error. -/
theorem call_tool_error_precedence_witness :
    call_tool (fun _ => none) 500 none = .transportError 500 ∧
    call_tool (fun _ => none) 200
        (some [("jsonrpc", .jstr "2.0"),
               ("error", .jobj [("code", .jnum (-32600)),
                                ("message", .jstr "boom")]),
               ("result", .jobj [("ignored", .jnull)])]) =
      .handled (.protocolError "MCP error [-32600]: boom") := by
  constructor
  · exact (call_tool_error_precedence (fun _ => none) 500 none [] [] "").1 rfl
  · have h := (call_tool_error_precedence (fun _ => none) 200
      (some [("jsonrpc", .jstr "2.0"),
             ("error", .jobj [("code", .jnum (-32600)),
                              ("message", .jstr "boom")]),
             ("result", .jobj [("ignored", .jnull)])])
      [("jsonrpc", .jstr "2.0"),
       ("error", .jobj [("code", .jnum (-32600)),
                        ("message", .jstr "boom")]),
       ("result", .jobj [("ignored", .jnull)])]
      [("code", .jnum (-32600)), ("message", .jstr "boom")]
      "boom").2 rfl rfl rfl rfl
    rw [h.1]
    rfl

/-- A success body whose `result` key holds a non-mapping value
(null, a string, a number, an array) is an exception path, not a
return: `rpc_response.get` hands the value through and
`result.get("content", [])` raises `AttributeError`. -/
theorem call_tool_non_mapping_result_raises
    (parse : String → Option JVal) :
    call_tool_handle parse [("jsonrpc", .jstr "2.0"), ("result", .jnull)] =
      .otherError ∧
    call_tool_handle parse [("result", .jstr "done")] = .otherError ∧
    call_tool_handle parse [("result", .jnum 3)] = .otherError ∧
    call_tool_handle parse [("result", .jarr [.jstr "x"])] = .otherError :=
  ⟨rfl, rfl, rfl, rfl⟩

/-- C1.  On a successful JSON-RPC response (no `error` field) whose
`result` is a mapping `rfields` — per the JSON-RPC data model; an
absent `result` key defaults to the empty mapping, and a non-mapping
`result` instead raises, see `call_tool_non_mapping_result_raises` —:
absent or empty `result.content` yields the empty mapping (so
`extract_text` yields `""` and `extract_metadata` yields the empty
mapping); a first content item of type `"text"` yields the JSON
decoding of its `text` field, from which `extract_text` reads the
`"text"` key with default `""`; a first content item of any other
type (or with no `type` at all) yields the empty mapping with no
error raised. -/
theorem call_tool_content_handling
    (parse : String → Option JVal) (rpc : List (String × JVal))
    (rfields : List (String × JVal))
    (herr : dictGet rpc "error" = none)
    (hres : (dictGet rpc "result").getD (.jobj []) = .jobj rfields) :
    ( dictGet rfields "content" = none ∨
      dictGet rfields "content" = some (.jarr []) →
      call_tool_handle parse rpc = .ok (.jobj []) ∧
      extract_text_from (call_tool_handle parse rpc) = some (.jstr "") ∧
      extract_metadata_from (call_tool_handle parse rpc)
        = some (.jobj []) ) ∧
    ( ∀ (ffields : List (String × JVal)) (rest : List JVal)
        (s : String) (v : JVal),
      dictGet rfields "content" = some (.jarr (.jobj ffields :: rest)) →
      dictGet ffields "type" = some (.jstr "text") →
      dictGet ffields "text" = some (.jstr s) →
      parse s = some v →
      call_tool_handle parse rpc = .ok v ∧
      (∀ gfields, v = .jobj gfields →
        extract_text_from (call_tool_handle parse rpc) =
          some ((dictGet gfields "text").getD (.jstr ""))) ) ∧
    ( ∀ (ffields : List (String × JVal)) (rest : List JVal),
      dictGet rfields "content" = some (.jarr (.jobj ffields :: rest)) →
      isTextType (dictGet ffields "type") = false →
      call_tool_handle parse rpc = .ok (.jobj []) ) := by
  refine ⟨?_, ?_, ?_⟩
  · intro h
    have hcall : call_tool_handle parse rpc = .ok (.jobj []) := by
      rcases h with h | h <;>
        simp [call_tool_handle, herr, hres, h, jFalsy]
    exact ⟨hcall, by rw [hcall]; rfl, by rw [hcall]; rfl⟩
  · intro ffields rest s v hc ht hx hp
    have hcall : call_tool_handle parse rpc = .ok v := by
      simp [call_tool_handle, herr, hres, hc, jFalsy, isTextType, ht, hx, hp]
    refine ⟨hcall, ?_⟩
    intro gfields hv
    rw [hcall, hv]
    rfl
  · intro ffields rest hc ht
    simp [call_tool_handle, herr, hres, hc, jFalsy, ht]

/-- Witness for C1: the three branches at concrete responses — empty
content, a text item whose payload decodes to a dictionary with a
`"text"` key, and an image-typed first item. -/
theorem call_tool_content_handling_witness :
    call_tool_handle (fun _ => none)
        [("jsonrpc", .jstr "2.0"), ("result", .jobj [("content", .jarr [])])]
      = .ok (.jobj []) ∧
    call_tool_handle
        (fun s => if s == "payload"
          then some (.jobj [("text", .jstr "Sample PDF text")]) else none)
        [("result", .jobj [("content", .jarr
          [.jobj [("type", .jstr "text"), ("text", .jstr "payload")]])])]
      = .ok (.jobj [("text", .jstr "Sample PDF text")]) ∧
    extract_text_from (call_tool_handle
        (fun s => if s == "payload"
          then some (.jobj [("text", .jstr "Sample PDF text")]) else none)
        [("result", .jobj [("content", .jarr
          [.jobj [("type", .jstr "text"), ("text", .jstr "payload")]])])])
      = some (.jstr "Sample PDF text") ∧
    call_tool_handle (fun _ => none)
        [("result", .jobj [("content", .jarr
          [.jobj [("type", .jstr "image"), ("data", .jstr "xxxx")]])])]
      = .ok (.jobj []) := by
  have h1 := (call_tool_content_handling (fun _ => none)
    [("jsonrpc", .jstr "2.0"), ("result", .jobj [("content", .jarr [])])]
    [("content", .jarr [])]
    rfl rfl).1 (Or.inr rfl)
  have h2 := (call_tool_content_handling
    (fun s => if s == "payload"
      then some (.jobj [("text", .jstr "Sample PDF text")]) else none)
    [("result", .jobj [("content", .jarr
      [.jobj [("type", .jstr "text"), ("text", .jstr "payload")]])])]
    [("content", .jarr
      [.jobj [("type", .jstr "text"), ("text", .jstr "payload")]])]
    rfl rfl).2.1 [("type", .jstr "text"), ("text", .jstr "payload")] []
    "payload" (.jobj [("text", .jstr "Sample PDF text")]) rfl rfl rfl rfl
  have h3 := (call_tool_content_handling (fun _ => none)
    [("result", .jobj [("content", .jarr
      [.jobj [("type", .jstr "image"), ("data", .jstr "xxxx")]])])]
    [("content", .jarr
      [.jobj [("type", .jstr "image"), ("data", .jstr "xxxx")]])]
    rfl rfl).2.2 [("type", .jstr "image"), ("data", .jstr "xxxx")] [] rfl rfl
  exact ⟨h1.1, h2.1, h2.2 [("text", .jstr "Sample PDF text")] rfl, h3⟩

/-- C9.  A successful response whose first content item has type
`"text"` but no `text` key makes `_call_tool` raise a `KeyError` from
the unguarded `first_item["text"]` indexing — not the documented parse
error and not an empty-mapping return. -/
theorem call_tool_missing_text_key
    (parse : String → Option JVal) (rpc : List (String × JVal))
    (ffields : List (String × JVal)) (rest : List JVal)
    (herr : dictGet rpc "error" = none)
    (hc : ((dictGet rpc "result").getD (.jobj [])).getField "content"
      = some (.jarr (.jobj ffields :: rest)))
    (ht : dictGet ffields "type" = some (.jstr "text"))
    (hx : dictGet ffields "text" = none) :
    call_tool_handle parse rpc = .keyError "text" ∧
    (∀ v, CallResult.keyError "text" ≠ CallResult.ok v) ∧
    CallResult.keyError "text" ≠ CallResult.parseError := by
  refine ⟨?_, fun v h => CallResult.noConfusion h,
    fun h => CallResult.noConfusion h⟩
  rcases hgf : (dictGet rpc "result").getD (.jobj [])
    with _ | b | n | s | xs | rfields <;>
    rw [hgf] at hc <;> simp [JVal.getField] at hc
  simp [call_tool_handle, herr, hgf, hc, jFalsy, isTextType, ht, hx]

/-- Witness for C9: a concrete text-typed content item with no `text`
field produces the `KeyError`. -/
theorem call_tool_missing_text_key_witness :
    call_tool_handle (fun _ => none)
        [("result", .jobj [("content", .jarr
          [.jobj [("type", .jstr "text")]])])]
      = .keyError "text" :=
  (call_tool_missing_text_key (fun _ => none)
    [("result", .jobj [("content", .jarr [.jobj [("type", .jstr "text")]])])]
    [("type", .jstr "text")] [] rfl rfl rfl rfl).1

/-- C7 counterexample.  A well-formed filesystem holding one existing
regular file at `/.pdf` — a name that does end in `.pdf` — on which
`validate_pdf_path` nonetheless raises `ValueError`: pathlib's
`suffix` of the dotfile name `.pdf` is empty, so the extension check
fails. -/
theorem validate_pdf_path_dotfile_counterexample :
    (singleFS "/.pdf" [37, 80] false).WF ∧
    (singleFS "/.pdf" [37, 80] false).pathExists "/.pdf" = true ∧
    strEndsWith (strToLower (pathName "/.pdf")) ".pdf" = true ∧
    validate_pdf_path (singleFS "/.pdf" [37, 80] false) "/.pdf" =
      .invalidFormat "File is not a PDF: /.pdf" :=
  ⟨singleFS_wf "/.pdf" [37, 80] false (by decide) (by decide),
   by decide, by decide, rfl⟩

/-- C7 (amended).  For every existing path whose pathlib suffix
lowercases to `.pdf` — i.e. the name ends in `.pdf` in any letter
case with at least one character before the dot — `validate_pdf_path`
succeeds with the canonicalized path: absolute, still existing, same
suffix, same byte-contents; and the outcome depends only on the
existence map and `resolve`, never on file contents (the file is not
opened). -/
theorem validate_pdf_path_success
    (fs : FS) (hwf : fs.WF) (p : String)
    (hex : fs.pathExists p = true)
    (hsuf : strToLower (pathSuffix p) = ".pdf") :
    validate_pdf_path fs p = .ok (fs.resolve p) ∧
    isAbsolutePath (fs.resolve p) = true ∧
    fs.pathExists (fs.resolve p) = true ∧
    pathSuffix (fs.resolve p) = pathSuffix p ∧
    fs.content (fs.resolve p) = fs.content p ∧
    (∀ fs2 : FS, fs2.pathExists = fs.pathExists → fs2.resolve = fs.resolve →
      validate_pdf_path fs2 p = validate_pdf_path fs p) := by
  refine ⟨?_, hwf.resolve_abs p hex, hwf.resolve_exists p hex, ?_,
    hwf.resolve_content p, ?_⟩
  · simp [validate_pdf_path, hex, hsuf]
  · unfold pathSuffix
    rw [hwf.resolve_name p hex]
  · intro fs2 h1 h2
    simp [validate_pdf_path, h1, h2]

/-- Witness for C7: validating a concrete existing `/a.PDF` file. -/
theorem validate_pdf_path_success_witness :
    validate_pdf_path (singleFS "/a.PDF" [37] false) "/a.PDF" =
      .ok "/a.PDF" ∧
    isAbsolutePath "/a.PDF" = true :=
  let h := validate_pdf_path_success (singleFS "/a.PDF" [37] false)
    (singleFS_wf "/a.PDF" [37] false (by decide) (by decide))
    "/a.PDF" (by decide) (by decide)
  ⟨h.1, h.2.1⟩

/-- C10 counterexample.  A well-formed filesystem holding one
existing directory at `/.pdf` — a directory name ending in `.pdf` —
on which `validate_pdf_path` does not succeed: the dotfile name has
an empty pathlib suffix, so the extension check rejects it. -/
theorem validate_pdf_path_dotdir_counterexample :
    (singleFS "/.pdf" [] true).WF ∧
    (singleFS "/.pdf" [] true).pathExists "/.pdf" = true ∧
    (singleFS "/.pdf" [] true).isDir "/.pdf" = true ∧
    strEndsWith (strToLower (pathName "/.pdf")) ".pdf" = true ∧
    validate_pdf_path (singleFS "/.pdf" [] true) "/.pdf" =
      .invalidFormat "File is not a PDF: /.pdf" :=
  ⟨singleFS_wf "/.pdf" [] true (by decide) (by decide),
   by decide, by decide, by decide, rfl⟩

/-- C10 (amended).  `validate_pdf_path` never checks for a regular
file: an existing directory whose pathlib suffix lowercases to `.pdf`
passes validation, and the failure only surfaces in
`read_pdf_as_base64`, as the `OSError` that `open` raises on a
directory — outside the `FileNotFoundError`/`ValueError` taxonomy. -/
theorem validate_pdf_path_accepts_directories
    (fs : FS) (hwf : fs.WF) (p : String)
    (hex : fs.pathExists p = true) (hdir : fs.isDir p = true)
    (hsuf : strToLower (pathSuffix p) = ".pdf") :
    validate_pdf_path fs p = .ok (fs.resolve p) ∧
    read_pdf_as_base64 fs p = .ioError ∧
    (∀ msg, ReadResult.ioError ≠ ReadResult.notFound msg) ∧
    (∀ msg, ReadResult.ioError ≠ ReadResult.invalidFormat msg) := by
  have hval : validate_pdf_path fs p = .ok (fs.resolve p) := by
    simp [validate_pdf_path, hex, hsuf]
  have hnone : fs.content (fs.resolve p) = none := by
    have hd : fs.isDir (fs.resolve p) = true := by
      rw [hwf.resolve_dir p, hdir]
    exact hwf.dir_no_content _ hd
  refine ⟨hval, ?_, fun msg h => ReadResult.noConfusion h,
    fun msg h => ReadResult.noConfusion h⟩
  simp [read_pdf_as_base64, hval, hnone]

/-- Witness for C10: a concrete directory named `/papers.pdf` passes
validation and then fails the read with the out-of-taxonomy error. -/
theorem validate_pdf_path_accepts_directories_witness :
    validate_pdf_path (singleFS "/papers.pdf" [] true) "/papers.pdf" =
      .ok "/papers.pdf" ∧
    read_pdf_as_base64 (singleFS "/papers.pdf" [] true) "/papers.pdf" =
      .ioError :=
  let h := validate_pdf_path_accepts_directories
    (singleFS "/papers.pdf" [] true)
    (singleFS_wf "/papers.pdf" [] true (by decide) (by decide))
    "/papers.pdf" (by decide) (by decide) (by decide)
  ⟨h.1, h.2.1⟩

/-- Decoding inverts the alphabet on every 6-bit group. -/
theorem b64CharIdx_b64Char : ∀ n, n < 64 → b64CharIdx (b64Char n) = some n := by
  decide

/-- Alphabet characters are never the padding character. -/
theorem b64Char_ne_pad : ∀ n, n < 64 → b64Char n ≠ '=' := by
  decide

/-- Alphabet characters are never a newline or a URL-safe
substitution character. -/
theorem b64Char_plain : ∀ n, n < 64 →
    b64Char n ≠ '\n' ∧ b64Char n ≠ '-' ∧ b64Char n ≠ '_' := by
  decide

/-- Induction on a byte list in the three-byte groups that base64
consumes. -/
theorem byteGroups {P : List Nat → Prop} (h0 : P []) (h1 : ∀ a, P [a])
    (h2 : ∀ a b, P [a, b])
    (h3 : ∀ a b c rest, P rest → P (a :: b :: c :: rest)) :
    ∀ l, P l
  | [] => h0
  | [a] => h1 a
  | [a, b] => h2 a b
  | a :: b :: c :: rest => h3 a b c rest (byteGroups h0 h1 h2 h3 rest)

/-- Base64 decoding inverts encoding on every byte list. -/
theorem b64_roundtrip : ∀ bs : List Nat, (∀ b ∈ bs, b < 256) →
    b64DecodeChars (b64EncodeBytes bs) = some bs := by
  refine byteGroups ?_ ?_ ?_ ?_
  · intro _
    rfl
  · intro a h
    have ha : a < 256 := h a (by simp)
    have e1 := b64CharIdx_b64Char (a / 4) (by omega)
    have e2 := b64CharIdx_b64Char (a % 4 * 16) (by omega)
    simp [b64EncodeBytes, b64DecodeChars, e1, e2]
    omega
  · intro a b h
    have ha : a < 256 := h a (by simp)
    have hb : b < 256 := h b (by simp)
    have e1 := b64CharIdx_b64Char (a / 4) (by omega)
    have e2 := b64CharIdx_b64Char (a % 4 * 16 + b / 16) (by omega)
    have e3 := b64CharIdx_b64Char (b % 16 * 4) (by omega)
    have n3 := b64Char_ne_pad (b % 16 * 4) (by omega)
    simp [b64EncodeBytes, b64DecodeChars, e1, e2, e3, n3]
    omega
  · intro a b c rest ih h
    have ha : a < 256 := h a (by simp)
    have hb : b < 256 := h b (by simp)
    have hc : c < 256 := h c (by simp)
    have hrest : ∀ x ∈ rest, x < 256 := fun x hx => h x (by simp [hx])
    have e1 := b64CharIdx_b64Char (a / 4) (by omega)
    have e2 := b64CharIdx_b64Char (a % 4 * 16 + b / 16) (by omega)
    have e3 := b64CharIdx_b64Char (b % 16 * 4 + c / 64) (by omega)
    have e4 := b64CharIdx_b64Char (c % 64) (by omega)
    have n3 := b64Char_ne_pad (b % 16 * 4 + c / 64) (by omega)
    have n4 := b64Char_ne_pad (c % 64) (by omega)
    have hdec := ih hrest
    simp [b64EncodeBytes, b64DecodeChars, e1, e2, e3, e4, n3, n4, hdec]
    omega

/-- Every character that base64 encoding emits is an alphabet
character or padding: never a newline, never the URL-safe `-` / `_`. -/
theorem b64Encode_chars : ∀ bs : List Nat, (∀ b ∈ bs, b < 256) →
    ∀ ch ∈ b64EncodeBytes bs, ch ≠ '\n' ∧ ch ≠ '-' ∧ ch ≠ '_' := by
  refine byteGroups ?_ ?_ ?_ ?_
  · intro _ ch hch
    simp [b64EncodeBytes] at hch
  · intro a h ch hch
    have ha : a < 256 := h a (by simp)
    simp only [b64EncodeBytes, List.mem_cons, List.not_mem_nil,
      or_false] at hch
    rcases hch with rfl | rfl | rfl | rfl
    · exact b64Char_plain _ (by omega)
    · exact b64Char_plain _ (by omega)
    · exact ⟨by decide, by decide, by decide⟩
    · exact ⟨by decide, by decide, by decide⟩
  · intro a b h ch hch
    have ha : a < 256 := h a (by simp)
    have hb : b < 256 := h b (by simp)
    simp only [b64EncodeBytes, List.mem_cons, List.not_mem_nil,
      or_false] at hch
    rcases hch with rfl | rfl | rfl | rfl
    · exact b64Char_plain _ (by omega)
    · exact b64Char_plain _ (by omega)
    · exact b64Char_plain _ (by omega)
    · exact ⟨by decide, by decide, by decide⟩
  · intro a b c rest ih h ch hch
    have ha : a < 256 := h a (by simp)
    have hb : b < 256 := h b (by simp)
    have hc : c < 256 := h c (by simp)
    have hrest : ∀ x ∈ rest, x < 256 := fun x hx => h x (by simp [hx])
    simp only [b64EncodeBytes, List.mem_cons] at hch
    rcases hch with rfl | rfl | rfl | rfl | hch
    · exact b64Char_plain _ (by omega)
    · exact b64Char_plain _ (by omega)
    · exact b64Char_plain _ (by omega)
    · exact b64Char_plain _ (by omega)
    · exact ih hrest ch hch

/-- C4.  For every file accepted by `validate_pdf_path` (an existing
regular file with byte-contents), `read_pdf_as_base64` succeeds with
the standard base64 encoding of exactly the file's bytes: decoding it
reproduces the original byte sequence (the empty file encodes to the
empty string), and the output carries no line wrapping and no
URL-safe alphabet characters. -/
theorem read_pdf_as_base64_roundtrip
    (fs : FS) (p r : String) (pdf_bytes : List Nat)
    (hval : validate_pdf_path fs p = .ok r)
    (hcon : fs.content r = some pdf_bytes)
    (hbytes : ∀ b ∈ pdf_bytes, b < 256) :
    read_pdf_as_base64 fs p = .ok (String.mk (b64EncodeBytes pdf_bytes)) ∧
    b64DecodeChars (b64EncodeBytes pdf_bytes) = some pdf_bytes ∧
    (∀ ch ∈ b64EncodeBytes pdf_bytes, ch ≠ '\n' ∧ ch ≠ '-' ∧ ch ≠ '_') ∧
    b64EncodeBytes [] = [] := by
  refine ⟨?_, b64_roundtrip pdf_bytes hbytes,
    b64Encode_chars pdf_bytes hbytes, rfl⟩
  simp [read_pdf_as_base64, hval, hcon]

/-- Witness for C4: reading a concrete 4-byte file `%PDF` yields
`JVBERg==`, which decodes back to the original bytes; the empty file
round-trips through the empty string. -/
theorem read_pdf_as_base64_roundtrip_witness :
    read_pdf_as_base64 (singleFS "/d.pdf" [37, 80, 68, 70] false) "/d.pdf" =
      .ok "JVBERg==" ∧
    b64DecodeChars "JVBERg==".data = some [37, 80, 68, 70] ∧
    read_pdf_as_base64 (singleFS "/e.pdf" [] false) "/e.pdf" = .ok "" := by
  have h := read_pdf_as_base64_roundtrip
    (singleFS "/d.pdf" [37, 80, 68, 70] false) "/d.pdf" "/d.pdf"
    [37, 80, 68, 70] rfl rfl (by decide)
  have h2 := read_pdf_as_base64_roundtrip
    (singleFS "/e.pdf" [] false) "/e.pdf" "/e.pdf" [] rfl rfl (by decide)
  refine ⟨?_, ?_, ?_⟩
  · rw [h.1]; rfl
  · have := h.2.1; rw [show "JVBERg==".data = b64EncodeBytes [37, 80, 68, 70]
      from by decide]; exact this
  · rw [h2.1]; rfl

end PdfMcpClient
